import Mathlib

/-!
Verification of the front-end API access layer with token-lifecycle management
(`ApiService` / `AuthService` and the error module `utils/errors.ts`).

The embedding models the browser pieces explicitly:
* `localStorage` is the `Store` record (the four persisted credential keys);
* JS objects used as header maps are partial maps `String → Option String`;
* thrown JS values are `JsError` (typed application errors, `TypeError`, plain
  `Error`);
* the network is an oracle: a queue of `FetchOutcome` values consumed, one per
  `fetch` call, in dispatch order;
* `Date.now()` is an explicit `now : Int` parameter (epoch milliseconds).
-/

/-- JS truthiness of a `localStorage.getItem` result: `null` and the empty
string are falsy, every other string is truthy. -/
def truthyStr : Option String → Bool
  | some s => s ≠ ""
  | none => false

/-- Helper for `String.prototype.includes`, on character lists: does `needle`
occur as a contiguous substring of `hay`? -/
def includesAux : List Char → List Char → Bool
  | [], needle => needle.isEmpty
  | h :: t, needle => needle.isPrefixOf (h :: t) || includesAux t needle

/-- JS `s.includes(sub)`. -/
def includes (s sub : String) : Bool :=
  includesAux s.data sub.data

/-- A JS object used as a header map (`RequestInit.headers`): a partial map
from header names to values.  Object spread and property assignment are the
only operations the source performs on it. -/
def Headers := String → Option String

/-- The empty header object `{}`. -/
def emptyHeaders : Headers := fun _ => none

/-- JS property assignment `obj[k] = v`. -/
def setHeader (hs : Headers) (k v : String) : Headers :=
  fun k' => if k' = k then some v else hs k'

/-- JS object spread `{...a, ...b}`: keys of `b` win. -/
def spreadHeaders (a b : Headers) : Headers :=
  fun k => match b k with
    | some v => some v
    | none => a k

/-! ## `utils/errors.ts` -/

/-- The `AppError` class hierarchy, flattened: `name` identifies the concrete
class (the error kind), the remaining fields are the constructor arguments
stored on the instance. -/
structure AppError where
  name : String
  message : String
  code : Option String
  status : Option Int
deriving Repr, DecidableEq

/-- `new AuthenticationError(message)`; the source's default message is
`"Authentication failed"`, every call site in scope passes one explicitly. -/
def AuthenticationError (message : String) : AppError :=
  ⟨"AuthenticationError", message, some "AUTH_ERROR", some 401⟩

/-- `new AuthorizationError(message)`. -/
def AuthorizationError (message : String) : AppError :=
  ⟨"AuthorizationError", message, some "FORBIDDEN", some 403⟩

/-- `new NetworkError(message)`; `super(message, 'NETWORK_ERROR')` leaves the
status field undefined. -/
def NetworkError (message : String) : AppError :=
  ⟨"NetworkError", message, some "NETWORK_ERROR", none⟩

/-- `new ValidationError(message)`; the optional `fields` argument is never
passed by the code in scope. -/
def ValidationError (message : String) : AppError :=
  ⟨"ValidationError", message, some "VALIDATION_ERROR", some 400⟩

/-- The `ApiError` payload shape: `detail: string | { error, message }`,
optional `status`. -/
structure ApiErrorPayload where
  detail : Sum String (String × String)
  status : Option Int
deriving Repr, DecidableEq

/-- `parseApiError` from `utils/errors.ts`.  `error.detail.message || '…'`
falls back on a falsy (empty) message; `error.status || 500` falls back on a
missing or zero status. -/
def parseApiError (e : ApiErrorPayload) : AppError :=
  let message := match e.detail with
    | .inl s => s
    | .inr d => if d.2 = "" then "An error occurred" else d.2
  let status : Int := match e.status with
    | some s => if s = 0 then 500 else s
    | none => 500
  if status = 401 then AuthenticationError message
  else if status = 403 then AuthorizationError message
  else if status = 400 then ValidationError message
  else ⟨"AppError", message, some "API_ERROR", some status⟩

/-! ## Persisted credential store (`constants/storage.ts` keys) -/

/-- The cached user profile (`types/auth.ts`).  `subscription_tier` and
`created_at` are optional at runtime (auth responses may omit them). -/
structure User where
  id : String
  username : String
  email : String
  subscription_tier : Option String
  created_at : Option String
deriving Repr, DecidableEq

/-- The four `localStorage` keys (`access_token`, `refresh_token`,
`token_expires_at`, `user`).  The expiry is stored as the decimal string of an
epoch-millisecond integer and read back with `parseInt`; it is modelled by the
integer itself.  The user is stored JSON-serialized; it is modelled by the
profile record. -/
structure Store where
  access_token : Option String
  refresh_token : Option String
  token_expires_at : Option Int
  user : Option User
deriving Repr, DecidableEq

/-! ## `services/auth.ts` -/

namespace AuthService

/-- `authService.saveToken`. -/
def saveToken (st : Store) (token : String) : Store :=
  { st with access_token := some token }

/-- `authService.saveRefreshToken`. -/
def saveRefreshToken (st : Store) (token : String) : Store :=
  { st with refresh_token := some token }

/-- `authService.saveTokenExpiry`: stores `Date.now() + expiresIn * 1000`. -/
def saveTokenExpiry (st : Store) (now expiresIn : Int) : Store :=
  { st with token_expires_at := some (now + expiresIn * 1000) }

/-- `authService.saveUser`. -/
def saveUser (st : Store) (u : User) : Store :=
  { st with user := some u }

/-- The auth response shape (`types/auth.ts` `AuthResponse`), with the two
fields a backend may omit made optional. -/
structure AuthResponse where
  access_token : String
  refresh_token : String
  token_type : String
  expires_in : Int
  user_id : String
  username : String
  email : String
  subscription_tier : Option String
  created_at : Option String
deriving Repr, DecidableEq

/-- The persistence part of `authService.login`: given the `AuthResponse` the
unauthenticated POST returned, save the token, refresh token, expiry and the
user profile assembled from the response fields.  (`register` runs the same
sequence.) -/
def login (st : Store) (now : Int) (resp : AuthResponse) : Store :=
  let st1 := saveToken st resp.access_token
  let st2 := saveRefreshToken st1 resp.refresh_token
  let st3 := saveTokenExpiry st2 now resp.expires_in
  saveUser st3 ⟨resp.user_id, resp.username, resp.email,
    resp.subscription_tier, resp.created_at⟩

end AuthService

/-! ## `ApiService` (`services/api.ts` with token-lifecycle management) -/

/-- A thrown JS value: a typed application error, a `TypeError` (as thrown by
a failing `fetch`), or a plain `Error`. -/
inductive JsError where
  | appError (e : AppError) : JsError
  | typeError (message : String) : JsError
  | plainError (message : String) : JsError
deriving Repr, DecidableEq

/-- What `response.json()` yields for a response body.  `errBody` is a
structured error payload `{"detail": …}`; `refreshBody` is a
`RefreshTokenResponse`; `value` stands for any other parseable success
payload (a JSON object with no `detail` field); `empty` is a body on which
`json()` rejects. -/
inductive Body where
  | errBody (detail : Sum String (String × String)) : Body
  | refreshBody (access_token refresh_token token_type : String)
      (expires_in : Int) : Body
  | value (tag : String) : Body
  | empty : Body
deriving Repr, DecidableEq

/-- One `fetch` settlement chosen by the network oracle: a response with a
status and body, or a rejection (e.g. a transport-level `TypeError`). -/
inductive FetchOutcome where
  | resp (status : Int) (body : Body) : FetchOutcome
  | reject (err : JsError) : FetchOutcome
deriving Repr, DecidableEq

/-- The value a successful request resolves with: the parsed JSON body, or
the `{}` substituted when the body is empty/unparseable. -/
inductive ResultVal where
  | fromBody (b : Body) : ResultVal
  | emptyObj : ResultVal
deriving Repr, DecidableEq

namespace ApiService

/-- `ApiService.handleResponse`.  `response.ok` is status 200–299.  For a
non-ok response the parsed body gets `error.status = response.status`
assigned before `parseApiError`; an unparseable body is replaced by the
synthesized payload.  A parseable error body without a `detail` field would
make `parseApiError` read `.message` off `undefined` and throw a
`TypeError` (no claim exercises this case). -/
def handleResponse (status : Int) (body : Body) : Except JsError ResultVal :=
  if 200 ≤ status ∧ status ≤ 299 then
    match body with
    | .empty => .ok .emptyObj
    | .errBody d => .ok (.fromBody (.errBody d))
    | .refreshBody a r t e => .ok (.fromBody (.refreshBody a r t e))
    | .value tag => .ok (.fromBody (.value tag))
  else
    match body with
    | .errBody d => .error (.appError (parseApiError ⟨d, some status⟩))
    | .empty => .error (.appError (parseApiError
        ⟨.inl ("HTTP error " ++ toString status), some status⟩))
    | .refreshBody _ _ _ _ => .error (.typeError
        "Cannot read properties of undefined (reading 'message')")
    | .value _ => .error (.typeError
        "Cannot read properties of undefined (reading 'message')")

/-- `ApiService.shouldRefreshToken`: false when no expiry is stored,
otherwise `Date.now() > parseInt(expiresAt) - 5 * 60 * 1000`. -/
def shouldRefreshToken (st : Store) (now : Int) : Bool :=
  match st.token_expires_at with
  | none => false
  | some expiresAt => now > expiresAt - 5 * 60 * 1000

/-- `ApiService.getAuthHeaders`: always yields an `Authorization` entry,
empty when no (truthy) token is stored. -/
def getAuthHeaders (st : Store) : Headers :=
  setHeader emptyHeaders "Authorization"
    (match st.access_token with
     | some t => if t = "" then "" else "Bearer " ++ t
     | none => "")

/-- The single interceptor installed by `setupDefaultInterceptors`: if a
token is stored and `config.headers` exists, assign
`Authorization = Bearer <token>`.  By the time interceptors run inside
`request`, `config.headers` is always an object (possibly `{}`), and any JS
object — including `{}` — is truthy, so only the token test matters. -/
def defaultRequestInterceptor (st : Store) (hs : Headers) : Headers :=
  if truthyStr st.access_token then
    setHeader hs "Authorization" ("Bearer " ++ st.access_token.getD "")
  else hs

/-- Outcome of one `refreshToken()` run: the settlement of the returned
promise, the resulting store, the unconsumed oracle queue, how many times the
`onUnauthorized` callback fired, and whether a backend refresh request was
dispatched. -/
structure RefreshOut where
  result : Except JsError String
  store : Store
  queue : List FetchOutcome
  callbackInvocations : Nat
  fetched : Bool
deriving Repr

/-- `ApiService.refreshToken`, sequential behaviour of one run (the
single-flight joining of concurrent runs is modelled separately by the
coordinator transition system below).  With no truthy stored refresh token it
rejects before touching the network, the store or the callback.  On a non-ok
response it removes all four credential keys, fires the registered callback,
and rejects.  On an ok response it persists the new tokens and the new
absolute expiry `now + expires_in * 1000` and resolves with the new access
token.  An ok response whose JSON lacks the token fields would make the
source persist the strings `"undefined"`/`"NaN"`; `NaN` has no integer
embedding and no claim reaches that case. -/
def refreshToken (now : Int) (callbackRegistered : Bool)
    (st : Store) (queue : List FetchOutcome) : RefreshOut :=
  if truthyStr st.refresh_token = false then
    ⟨.error (.plainError "No refresh token available"), st, queue, 0, false⟩
  else
    match queue with
    | [] => ⟨.error (.plainError "oracle exhausted"), st, [], 0, true⟩
    | .reject e :: q2 => ⟨.error e, st, q2, 0, true⟩
    | .resp status body :: q2 =>
      if 200 ≤ status ∧ status ≤ 299 then
        match body with
        | .refreshBody a r _tt e =>
          ⟨.ok a, ⟨some a, some r, some (now + e * 1000), st.user⟩, q2, 0, true⟩
        | .empty =>
          ⟨.error (.plainError "Unexpected end of JSON input"), st, q2, 0, true⟩
        | _ =>
          ⟨.ok "undefined",
           ⟨some "undefined", some "undefined", none, st.user⟩, q2, 0, true⟩
      else
        ⟨.error (.plainError "Token refresh failed"), ⟨none, none, none, none⟩,
         q2, if callbackRegistered then 1 else 0, true⟩

/-- Observable events of one `request` run, in order: `refreshToken()`
invocations, backend refresh dispatches, and primary `fetch` dispatches
(with the headers actually sent and the retry mark). -/
inductive REvent where
  | refreshCall : REvent
  | refreshFetch : REvent
  | primaryFetch (headers : Headers) (isRetry : Bool) : REvent

/-- Outcome of one `request` run. -/
structure ReqOut where
  result : Except JsError ResultVal
  store : Store
  queue : List FetchOutcome
  callbacks : Nat
  log : List REvent

/-- The `catch` block of `ApiService.request`: a `TypeError` whose message
contains `'Failed to fetch'` is wrapped into a `NetworkError`; everything
else is rethrown unchanged. -/
def applyCatch (r : ReqOut) : ReqOut :=
  match r.result with
  | .error (.typeError m) =>
    if includes m "Failed to fetch" then
      { r with result := .error (.appError (NetworkError
          "Network connection failed. Please check your internet connection.")) }
    else r
  | _ => r

/-- The dispatch-and-react part of `ApiService.request` (everything after the
proactive-refresh step): build headers, run the interceptor, dispatch, and
either enter the reactive 401 branch or hand the response to
`handleResponse`.  `retryCont` stands for the recursive call
`this.request(endpoint, config, requiresAuth, true)`; that call is returned
without `await`, so the enclosing `try` never observes its rejection and its
own `catch` is the only one applied to it. -/
def requestGo (retryCont : Store → List FetchOutcome → ReqOut)
    (now : Int) (callbackRegistered : Bool) (configHeaders : Headers)
    (requiresAuth isRetry : Bool) (st : Store) (queue : List FetchOutcome)
    (cb0 : Nat) (log0 : List REvent) : ReqOut :=
  let headers1 := defaultRequestInterceptor st
    (spreadHeaders configHeaders
      (if requiresAuth then getAuthHeaders st else emptyHeaders))
  let log2 := log0 ++ [REvent.primaryFetch headers1 isRetry]
  match queue with
  | [] => ⟨.error (.plainError "oracle exhausted"), st, [], cb0, log2⟩
  | .reject e :: q2 => ⟨.error e, st, q2, cb0, log2⟩
  | .resp status body :: q2 =>
    if status = 401 ∧ requiresAuth = true ∧ isRetry = false then
      let r := refreshToken now callbackRegistered st q2
      let log3 := log2 ++ REvent.refreshCall ::
        (if r.fetched then [REvent.refreshFetch] else [])
      match r.result with
      | .error _ =>
        ⟨.error (.appError (parseApiError
            ⟨.inl "Session expired. Please login again.", some 401⟩)),
         r.store, r.queue, cb0 + r.callbackInvocations, log3⟩
      | .ok _ =>
        let inner := retryCont r.store r.queue
        ⟨inner.result, inner.store, inner.queue,
         cb0 + r.callbackInvocations + inner.callbacks, log3 ++ inner.log⟩
    else
      ⟨handleResponse status body, st, q2, cb0, log2⟩

/-- The `try` block of `ApiService.request`: the proactive refresh (for an
authenticated, non-retry request whose stored expiry is inside the 5-minute
window), then dispatch.  A proactive-refresh rejection propagates to the
`catch`. -/
def requestTry (retryCont : Store → List FetchOutcome → ReqOut)
    (now : Int) (callbackRegistered : Bool) (configHeaders : Headers)
    (requiresAuth isRetry : Bool) (st : Store) (queue : List FetchOutcome) :
    ReqOut :=
  if requiresAuth = true ∧ isRetry = false ∧ shouldRefreshToken st now = true then
    let r := refreshToken now callbackRegistered st queue
    let log0 := REvent.refreshCall ::
      (if r.fetched then [REvent.refreshFetch] else [])
    match r.result with
    | .error e => ⟨.error e, r.store, r.queue, r.callbackInvocations, log0⟩
    | .ok _ => requestGo retryCont now callbackRegistered configHeaders
        requiresAuth isRetry r.store r.queue r.callbackInvocations log0
  else
    requestGo retryCont now callbackRegistered configHeaders
      requiresAuth isRetry st queue 0 []

/-- One `request` invocation with its own `catch` applied, the retry
continuation still abstract. -/
def requestBase (retryCont : Store → List FetchOutcome → ReqOut)
    (now : Int) (callbackRegistered : Bool) (configHeaders : Headers)
    (requiresAuth isRetry : Bool) (st : Store) (queue : List FetchOutcome) :
    ReqOut :=
  applyCatch (requestTry retryCont now callbackRegistered configHeaders
    requiresAuth isRetry st queue)

/-- Continuation for the retry slot of a retry (`isRetry = true`) run; the
reactive branch is guarded by `!isRetry`, so it is never invoked. -/
def noRetryCont : Store → List FetchOutcome → ReqOut :=
  fun st q => ⟨.error (.plainError "unreachable: retry of a retry"), st, q, 0, []⟩

/-- `ApiService.request`.  The recursion of the source bottoms out after one
level because the recursive call passes `isRetry = true` and the reactive
branch requires `!isRetry`; the recursion is therefore unrolled once, with
`noRetryCont` in the provably unreachable slot.  Re-applying the outer
`catch` to the retry's already-caught result (which the source never does,
since the retry is returned un-awaited) is harmless: `applyCatch` is
idempotent (`applyCatch_applyCatch` below). -/
def request (now : Int) (callbackRegistered : Bool) (configHeaders : Headers)
    (requiresAuth isRetry : Bool) (st : Store) (queue : List FetchOutcome) :
    ReqOut :=
  if isRetry then
    requestBase noRetryCont now callbackRegistered configHeaders
      requiresAuth true st queue
  else
    requestBase
      (fun st' q' => requestBase noRetryCont now callbackRegistered
        configHeaders requiresAuth true st' q')
      now callbackRegistered configHeaders requiresAuth false st queue

end ApiService

/-! ## Observations on a request log -/

/-- Number of primary `fetch` dispatches in a log. -/
def primaryCount (log : List ApiService.REvent) : Nat :=
  log.countP fun e => match e with
    | .primaryFetch _ _ => true
    | _ => false

/-- Number of primary `fetch` dispatches marked as retries. -/
def retryFetchCount (log : List ApiService.REvent) : Nat :=
  log.countP fun e => match e with
    | .primaryFetch _ r => r
    | _ => false

/-- Number of `refreshToken()` invocations. -/
def refreshCallCount (log : List ApiService.REvent) : Nat :=
  log.countP fun e => match e with
    | .refreshCall => true
    | _ => false

/-- Number of backend refresh dispatches. -/
def refreshFetchCount (log : List ApiService.REvent) : Nat :=
  log.countP fun e => match e with
    | .refreshFetch => true
    | _ => false

/-- Headers of the first primary `fetch` dispatch, if any. -/
def firstFetchHeaders : List ApiService.REvent → Option Headers
  | [] => none
  | .primaryFetch h _ :: _ => some h
  | _ :: es => firstFetchHeaders es

/-- `Authorization` entry of the first primary `fetch` dispatch. -/
def firstFetchAuthHeader (log : List ApiService.REvent) :
    Option (Option String) :=
  (firstFetchHeaders log).map (fun h => h "Authorization")

/-- Did the run refresh proactively, i.e. call `refreshToken()` before
dispatching the primary request? -/
def proactiveRefreshed (log : List ApiService.REvent) : Bool :=
  match log with
  | .refreshCall :: _ => true
  | _ => false

/-- The error kind a run failed with: the `name` of the thrown typed
application error, or `none` when the run succeeded or the thrown value was
not an `AppError`. -/
def resultKind : Except JsError ResultVal → Option String
  | .error (.appError e) => some e.name
  | _ => none

/-! ## Single-flight refresh coordinator

The browser event loop runs each task's synchronous segment atomically; the
only suspension point inside `refreshToken` is the `await fetch(...)`.  The
coordinator is therefore a transition system whose atomic steps are:

* `call` — some task invokes `refreshToken()` and runs it up to its first
  suspension (or to synchronous completion when it throws before any
  `await`);
* `settle ok` — the outstanding backend refresh request settles and the
  continuation (including the `finally`) runs.

The state mirrors the fields `isRefreshing` and `refreshPromise`, the
presence of a stored refresh token, and bookkeeping for the backend requests
currently outstanding and promise identities. -/

namespace Coord

/-- A promise held in `refreshPromise`: its identity and whether it has
already settled. -/
structure PromiseInfo where
  id : Nat
  settled : Bool
deriving Repr, DecidableEq

/-- Coordinator state.  `outstanding` counts backend refresh requests in
flight; `totalFetches` counts them cumulatively; `nextId` generates promise
identities. -/
structure CoordState where
  isRefreshing : Bool
  refreshPromise : Option PromiseInfo
  hasRefreshToken : Bool
  outstanding : Nat
  totalFetches : Nat
  nextId : Nat
deriving Repr, DecidableEq

/-- Scheduler events. -/
inductive CoordEv where
  | call : CoordEv
  | settle (ok : Bool) : CoordEv
deriving Repr, DecidableEq

/-- One atomic step.  Returns the new state and, for a `call`, the identity
of the promise handed to the caller.

`call` follows the source line by line: if `isRefreshing && refreshPromise`,
the existing promise is returned.  Otherwise `isRefreshing = true` is set and
the async IIFE starts: with a stored refresh token it suspends at `fetch`,
and the pending promise is assigned to `refreshPromise`; with none, the body
throws synchronously, the `finally` resets both fields, and only then does
the outer assignment store the already-rejected promise — so the handle ends
up holding a settled promise.

`settle` runs the continuation of the awaited `fetch`: on failure the stored
refresh token is gone (all four keys removed), on success a new one is
stored; the `finally` clears `isRefreshing` and `refreshPromise`. -/
def coordStep (s : CoordState) : CoordEv → CoordState × Option Nat
  | .call =>
    if s.isRefreshing = true ∧ s.refreshPromise.isSome = true then
      (s, s.refreshPromise.map (fun p => p.id))
    else if s.hasRefreshToken then
      ({ s with isRefreshing := true,
                refreshPromise := some ⟨s.nextId, false⟩,
                outstanding := s.outstanding + 1,
                totalFetches := s.totalFetches + 1,
                nextId := s.nextId + 1 }, some s.nextId)
    else
      ({ s with isRefreshing := false,
                refreshPromise := some ⟨s.nextId, true⟩,
                nextId := s.nextId + 1 }, some s.nextId)
  | .settle ok =>
    if s.outstanding = 0 then (s, none)
    else
      ({ s with isRefreshing := false,
                refreshPromise := none,
                hasRefreshToken := ok,
                outstanding := s.outstanding - 1 }, none)

/-- Run a list of scheduler events. -/
def coordRun (s : CoordState) : List CoordEv → CoordState
  | [] => s
  | e :: es => coordRun (coordStep s e).1 es

/-- Initial state: idle, no promise, no backend request ever dispatched;
whether a refresh token is stored is a parameter. -/
def coordInit (hasTok : Bool) : CoordState :=
  ⟨false, none, hasTok, 0, 0, 0⟩

/-- The single-flight invariant: at most one backend refresh request is ever
outstanding, `isRefreshing` tracks exactly that, and an unsettled promise sits
in the handle exactly while a backend request is in flight. -/
def CoordInv (s : CoordState) : Prop :=
  s.outstanding ≤ 1 ∧
  (s.isRefreshing = true ↔ s.outstanding = 1) ∧
  ((∃ p, s.refreshPromise = some p ∧ p.settled = false) ↔ s.outstanding = 1)

end Coord

/-! ## Helper lemmas -/

theorem applyCatch_log (r : ApiService.ReqOut) :
    (ApiService.applyCatch r).log = r.log := by
  unfold ApiService.applyCatch
  split
  · split <;> rfl
  · rfl

theorem applyCatch_store (r : ApiService.ReqOut) :
    (ApiService.applyCatch r).store = r.store := by
  unfold ApiService.applyCatch
  split
  · split <;> rfl
  · rfl

theorem applyCatch_queue (r : ApiService.ReqOut) :
    (ApiService.applyCatch r).queue = r.queue := by
  unfold ApiService.applyCatch
  split
  · split <;> rfl
  · rfl

theorem applyCatch_callbacks (r : ApiService.ReqOut) :
    (ApiService.applyCatch r).callbacks = r.callbacks := by
  unfold ApiService.applyCatch
  split
  · split <;> rfl
  · rfl

theorem applyCatch_appError (r : ApiService.ReqOut) (e : AppError)
    (h : r.result = .error (.appError e)) : ApiService.applyCatch r = r := by
  unfold ApiService.applyCatch
  rw [h]

theorem applyCatch_plainError (r : ApiService.ReqOut) (m : String)
    (h : r.result = .error (.plainError m)) : ApiService.applyCatch r = r := by
  unfold ApiService.applyCatch
  rw [h]

theorem applyCatch_ok (r : ApiService.ReqOut) (v : ResultVal)
    (h : r.result = .ok v) : ApiService.applyCatch r = r := by
  unfold ApiService.applyCatch
  rw [h]

/-- `applyCatch` is idempotent: its output never matches the guard again. -/
theorem applyCatch_applyCatch (r : ApiService.ReqOut) :
    ApiService.applyCatch (ApiService.applyCatch r) = ApiService.applyCatch r := by
  rcases r with ⟨res, st, q, cb, log⟩
  rcases res with e | v
  · rcases e with e | m | m
    · rfl
    · by_cases h : includes m "Failed to fetch" = true
      · simp [ApiService.applyCatch, h]
      · simp [ApiService.applyCatch, h]
    · rfl
  · rfl

/-- Every branch of `requestGo` logs the primary dispatch, with the headers
produced by the merge and the default interceptor, right after `log0`. -/
theorem requestGo_log_structure (rc : Store → List FetchOutcome → ApiService.ReqOut)
    (now : Int) (cb : Bool) (hs : Headers) (ra ir : Bool) (st : Store)
    (q : List FetchOutcome) (cb0 : Nat) (log0 : List ApiService.REvent) :
    ∃ rest, (ApiService.requestGo rc now cb hs ra ir st q cb0 log0).log =
      log0 ++ ApiService.REvent.primaryFetch
        (ApiService.defaultRequestInterceptor st
          (spreadHeaders hs (if ra then ApiService.getAuthHeaders st else emptyHeaders)))
        ir :: rest := by
  unfold ApiService.requestGo
  cases q with
  | nil => exact ⟨[], rfl⟩
  | cons o q2 =>
    cases o with
    | reject e => exact ⟨[], rfl⟩
    | resp status body =>
      by_cases hg : status = 401 ∧ ra = true ∧ ir = false
      · simp only [if_pos hg]
        split
        · refine ⟨ApiService.REvent.refreshCall ::
            (if (ApiService.refreshToken now cb st q2).fetched = true then
              [ApiService.REvent.refreshFetch] else []), ?_⟩
          simp
        · refine ⟨ApiService.REvent.refreshCall ::
            ((if (ApiService.refreshToken now cb st q2).fetched = true then
              [ApiService.REvent.refreshFetch] else []) ++
              (rc (ApiService.refreshToken now cb st q2).store
                (ApiService.refreshToken now cb st q2).queue).log), ?_⟩
          simp
      · simp only [if_neg hg]
        exact ⟨[], rfl⟩

/-- Headers of the first primary dispatch of a `requestGo` run started with
an empty log. -/
theorem requestGo_firstHeaders (rc : Store → List FetchOutcome → ApiService.ReqOut)
    (now : Int) (cb : Bool) (hs : Headers) (ra ir : Bool) (st : Store)
    (q : List FetchOutcome) (cb0 : Nat) :
    firstFetchHeaders (ApiService.requestGo rc now cb hs ra ir st q cb0 []).log =
      some (ApiService.defaultRequestInterceptor st
        (spreadHeaders hs (if ra then ApiService.getAuthHeaders st else emptyHeaders))) := by
  obtain ⟨rest, hr⟩ := requestGo_log_structure rc now cb hs ra ir st q cb0 []
  rw [hr]
  rfl

theorem requestTry_not_proactive (rc : Store → List FetchOutcome → ApiService.ReqOut)
    (now : Int) (cb : Bool) (hs : Headers) (ra ir : Bool) (st : Store)
    (q : List FetchOutcome)
    (h : ¬(ra = true ∧ ir = false ∧ ApiService.shouldRefreshToken st now = true)) :
    ApiService.requestTry rc now cb hs ra ir st q =
      ApiService.requestGo rc now cb hs ra ir st q 0 [] := by
  unfold ApiService.requestTry
  rw [if_neg h]

theorem shouldRefreshToken_iff (st : Store) (now : Int) :
    ApiService.shouldRefreshToken st now = true ↔
      ∃ e, st.token_expires_at = some e ∧ now > e - 5 * 60 * 1000 := by
  unfold ApiService.shouldRefreshToken
  cases h : st.token_expires_at with
  | none => simp
  | some e => simp [h]

theorem parseApiError_400 (m : String) :
    parseApiError ⟨.inl m, some 400⟩ = ValidationError m := by
  simp [parseApiError]

theorem parseApiError_401 (m : String) :
    parseApiError ⟨.inl m, some 401⟩ = AuthenticationError m := by
  simp [parseApiError]

theorem parseApiError_403 (m : String) :
    parseApiError ⟨.inl m, some 403⟩ = AuthorizationError m := by
  simp [parseApiError]

theorem parseApiError_other (m : String) (s : Int) (h0 : s ≠ 0)
    (h400 : s ≠ 400) (h401 : s ≠ 401) (h403 : s ≠ 403) :
    parseApiError ⟨.inl m, some s⟩ = ⟨"AppError", m, some "API_ERROR", some s⟩ := by
  simp [parseApiError, h0, h400, h401, h403]

theorem coordStep_inv (s : Coord.CoordState) (e : Coord.CoordEv)
    (h : Coord.CoordInv s) : Coord.CoordInv (Coord.coordStep s e).1 := by
  obtain ⟨h1, h2, h3⟩ := h
  cases e with
  | call =>
    by_cases hg : s.isRefreshing = true ∧ s.refreshPromise.isSome = true
    · simp only [Coord.coordStep, if_pos hg]
      exact ⟨h1, h2, h3⟩
    · have hout : s.outstanding = 0 := by
        by_contra hne
        have hone : s.outstanding = 1 := by omega
        apply hg
        refine ⟨h2.mpr hone, ?_⟩
        obtain ⟨p, hp, _⟩ := h3.mpr hone
        simp [hp]
      by_cases ht : s.hasRefreshToken
      · simp only [Coord.coordStep, if_neg hg, if_pos ht]
        exact ⟨by simp [hout], by simp [hout], by simp [hout]⟩
      · simp only [Coord.coordStep, if_neg hg, if_neg ht]
        refine ⟨by simpa using h1, by simp [hout], ?_⟩
        simp [hout]
  | settle ok =>
    by_cases hz : s.outstanding = 0
    · simp only [Coord.coordStep, if_pos hz]
      exact ⟨h1, h2, h3⟩
    · simp only [Coord.coordStep, if_neg hz]
      have hone : s.outstanding = 1 := by omega
      refine ⟨by simp [hone], by simp [hone], ?_⟩
      simp [hone]

theorem coordInit_inv (b : Bool) : Coord.CoordInv (Coord.coordInit b) := by
  refine ⟨by simp [Coord.coordInit], by simp [Coord.coordInit], ?_⟩
  simp [Coord.coordInit]

theorem coordRun_inv (evs : List Coord.CoordEv) (s : Coord.CoordState)
    (h : Coord.CoordInv s) : Coord.CoordInv (Coord.coordRun s evs) := by
  induction evs generalizing s with
  | nil => exact h
  | cons e es ih => exact ih _ (coordStep_inv s e h)

/-- A `request` run refreshes proactively exactly when it is authenticated,
not a retry, and the stored expiry is inside the 5-minute window. -/
theorem requestBase_proactive (rc : Store → List FetchOutcome → ApiService.ReqOut)
    (now : Int) (cb : Bool) (hs : Headers) (ra ir : Bool) (st : Store)
    (q : List FetchOutcome) :
    proactiveRefreshed (ApiService.requestBase rc now cb hs ra ir st q).log =
      (ra && !ir && ApiService.shouldRefreshToken st now) := by
  unfold ApiService.requestBase
  rw [applyCatch_log]
  by_cases hg : ra = true ∧ ir = false ∧ ApiService.shouldRefreshToken st now = true
  · obtain ⟨hra, hir, hsr⟩ := hg
    subst hra
    subst hir
    unfold ApiService.requestTry
    rw [if_pos ⟨rfl, rfl, hsr⟩]
    simp only [hsr, Bool.not_false, Bool.and_self, Bool.and_true]
    split
    · rfl
    · obtain ⟨rest, hr⟩ := requestGo_log_structure rc now cb hs true false
        (ApiService.refreshToken now cb st q).store
        (ApiService.refreshToken now cb st q).queue
        (ApiService.refreshToken now cb st q).callbackInvocations
        (ApiService.REvent.refreshCall ::
          (if (ApiService.refreshToken now cb st q).fetched = true then
            [ApiService.REvent.refreshFetch] else []))
      rw [hr]
      simp [proactiveRefreshed]
  · rw [requestTry_not_proactive rc now cb hs ra ir st q hg]
    obtain ⟨rest, hr⟩ := requestGo_log_structure rc now cb hs ra ir st q 0 []
    rw [hr]
    cases hra : ra <;> cases hir : ir <;>
      cases hsr : ApiService.shouldRefreshToken st now <;>
      simp_all [proactiveRefreshed]

/-! ## Claims -/

/-- C2: for an authenticated, non-retry request, a proactive refresh happens
before the primary dispatch if and only if a stored expiry exists and
`now > expiresAt - 5min`; with no stored expiry there is no proactive
refresh, and a non-authenticated or retry request never refreshes
proactively. -/
theorem C2_proactive_refresh_window (now : Int) (cb : Bool) (hs : Headers)
    (st : Store) (q : List FetchOutcome) :
    (proactiveRefreshed (ApiService.request now cb hs true false st q).log = true ↔
      ∃ e, st.token_expires_at = some e ∧ now > e - 5 * 60 * 1000) ∧
    (∀ ra ir : Bool, (ra && !ir) = false →
      proactiveRefreshed (ApiService.request now cb hs ra ir st q).log = false) := by
  constructor
  · have h1 : ApiService.request now cb hs true false st q =
        ApiService.requestBase
          (fun st' q' => ApiService.requestBase ApiService.noRetryCont now cb hs
            true true st' q') now cb hs true false st q := rfl
    rw [h1, requestBase_proactive]
    simp [shouldRefreshToken_iff]
  · intro ra ir h
    cases ir
    · have h1 : ApiService.request now cb hs ra false st q =
          ApiService.requestBase
            (fun st' q' => ApiService.requestBase ApiService.noRetryCont now cb hs
              ra true st' q') now cb hs ra false st q := rfl
      rw [h1, requestBase_proactive]
      simp_all
    · have h1 : ApiService.request now cb hs ra true st q =
          ApiService.requestBase ApiService.noRetryCont now cb hs ra true st q := rfl
      rw [h1, requestBase_proactive]
      simp

theorem C2_witness :
    proactiveRefreshed (ApiService.request 0 false emptyHeaders false false
      ⟨none, none, none, none⟩ []).log = false :=
  (C2_proactive_refresh_window 0 false emptyHeaders ⟨none, none, none, none⟩ []).2
    false false rfl

/-- C4: a refresh that reaches the backend and gets a non-ok response clears
all four credential fields (never a partial state), fires the registered
unauthorized callback exactly once, and rejects; a request awaiting that
refresh on the reactive 401 path fails with the session-expired
`AuthenticationError`. -/
theorem C4_refresh_failure_postcondition (now : Int) (cb : Bool) (st : Store)
    (q : List FetchOutcome) (s : Int) (body : Body)
    (h1 : truthyStr st.refresh_token = true) (h2 : ¬(200 ≤ s ∧ s ≤ 299)) :
    (ApiService.refreshToken now cb st (.resp s body :: q)).store =
      ⟨none, none, none, none⟩ ∧
    (ApiService.refreshToken now cb st (.resp s body :: q)).callbackInvocations =
      (if cb then 1 else 0) ∧
    (ApiService.refreshToken now cb st (.resp s body :: q)).result =
      .error (.plainError "Token refresh failed") ∧
    (∀ (hs : Headers) (b : Body) (q2 : List FetchOutcome),
      ApiService.shouldRefreshToken st now = false →
      (ApiService.request now cb hs true false st
          (.resp 401 b :: .resp s body :: q2)).result =
        .error (.appError (AuthenticationError "Session expired. Please login again.")) ∧
      (ApiService.request now cb hs true false st
          (.resp 401 b :: .resp s body :: q2)).callbacks = (if cb then 1 else 0)) := by
  refine ⟨by simp [ApiService.refreshToken, h1, h2], by simp [ApiService.refreshToken, h1, h2],
    by simp [ApiService.refreshToken, h1, h2], ?_⟩
  intro hs b q2 h3
  simp [ApiService.request, ApiService.requestBase, ApiService.requestTry, h3,
    ApiService.requestGo, ApiService.refreshToken, h1, h2, ApiService.applyCatch,
    parseApiError_401]

theorem C4_witness :
    (ApiService.refreshToken 0 true ⟨some "T", some "R", none, none⟩
      [.resp 500 (.errBody (.inl "boom"))]).store = ⟨none, none, none, none⟩ ∧
    (ApiService.refreshToken 0 true ⟨some "T", some "R", none, none⟩
      [.resp 500 (.errBody (.inl "boom"))]).callbackInvocations = 1 :=
  ⟨(C4_refresh_failure_postcondition 0 true ⟨some "T", some "R", none, none⟩ []
      500 (.errBody (.inl "boom")) (by decide) (by norm_num)).1,
   (C4_refresh_failure_postcondition 0 true ⟨some "T", some "R", none, none⟩ []
      500 (.errBody (.inl "boom")) (by decide) (by norm_num)).2.1⟩

/-- C5: a refresh that gets an ok response persists the new access token, the
new refresh token and the new absolute expiry `now + expires_in * 1000`,
resolves with the new access token, and leaves the cached user profile
untouched. -/
theorem C5_refresh_success_frame (now : Int) (cb : Bool) (st : Store)
    (q : List FetchOutcome) (a r tt : String) (e s : Int)
    (h1 : truthyStr st.refresh_token = true) (h2 : 200 ≤ s ∧ s ≤ 299) :
    ApiService.refreshToken now cb st (.resp s (.refreshBody a r tt e) :: q) =
      ⟨.ok a, ⟨some a, some r, some (now + e * 1000), st.user⟩, q, 0, true⟩ := by
  simp [ApiService.refreshToken, h1, h2]

theorem C5_witness :
    ApiService.refreshToken 0 false ⟨some "T", some "R", none,
        some ⟨"u1", "alice", "a@b.com", none, none⟩⟩
      [.resp 200 (.refreshBody "T2" "R2" "bearer" 3600)] =
      ⟨.ok "T2", ⟨some "T2", some "R2", some 3600000,
        some ⟨"u1", "alice", "a@b.com", none, none⟩⟩, [], 0, true⟩ := by
  simpa using C5_refresh_success_frame 0 false
    ⟨some "T", some "R", none, some ⟨"u1", "alice", "a@b.com", none, none⟩⟩
    [] "T2" "R2" "bearer" 3600 200 (by decide) (by norm_num)

/-- C6: a non-2xx response with body `{"detail": m}` fails with exactly the
typed error of the taxonomy — 400 is `ValidationError`, 401 is
`AuthenticationError`, 403 is `AuthorizationError`, every other status a
generic `AppError` with code `API_ERROR` carrying the original status — with
message exactly `m`; an unparseable error body is replaced by the
synthesized `HTTP error <status>` payload carrying the status. -/
theorem C6_error_mapping :
    (∀ m : String, ApiService.handleResponse 400 (.errBody (.inl m)) =
      .error (.appError (ValidationError m))) ∧
    (∀ m : String, ApiService.handleResponse 401 (.errBody (.inl m)) =
      .error (.appError (AuthenticationError m))) ∧
    (∀ m : String, ApiService.handleResponse 403 (.errBody (.inl m)) =
      .error (.appError (AuthorizationError m))) ∧
    (∀ (m : String) (s : Int), ¬(200 ≤ s ∧ s ≤ 299) →
      s ≠ 0 → s ≠ 400 → s ≠ 401 → s ≠ 403 →
      ApiService.handleResponse s (.errBody (.inl m)) =
        .error (.appError ⟨"AppError", m, some "API_ERROR", some s⟩)) ∧
    (∀ s : Int, ¬(200 ≤ s ∧ s ≤ 299) →
      ApiService.handleResponse s Body.empty =
        .error (.appError (parseApiError
          ⟨.inl ("HTTP error " ++ toString s), some s⟩))) := by
  refine ⟨?_, ?_, ?_, ?_, ?_⟩
  · intro m
    norm_num [ApiService.handleResponse, parseApiError_400]
  · intro m
    norm_num [ApiService.handleResponse, parseApiError_401]
  · intro m
    norm_num [ApiService.handleResponse, parseApiError_403]
  · intro m s h h0 h400 h401 h403
    unfold ApiService.handleResponse
    rw [if_neg h]
    exact congrArg (fun e => Except.error (JsError.appError e))
      (parseApiError_other m s h0 h400 h401 h403)
  · intro s h
    unfold ApiService.handleResponse
    rw [if_neg h]

theorem C6_witness :
    ApiService.handleResponse 500 (.errBody (.inl "X")) =
      .error (.appError ⟨"AppError", "X", some "API_ERROR", some 500⟩) :=
  C6_error_mapping.2.2.2.1 "X" 500 (by norm_num) (by norm_num) (by norm_num)
    (by norm_num) (by norm_num)

/-- C8: the login scenario — response
`{access_token:"T1", refresh_token:"R1", expires_in:3600, user_id:"u1",
username:"alice", email:"a@b.com"}` leaves the store holding exactly
`accessToken="T1"`, `refreshToken="R1"`, `expiresAt=now+3600000`, and the
user profile `{id:"u1", username:"alice", email:"a@b.com"}`. -/
theorem C8_login_scenario (st : Store) (now : Int) :
    AuthService.login st now
      ⟨"T1", "R1", "bearer", 3600, "u1", "alice", "a@b.com", none, none⟩ =
      ⟨some "T1", some "R1", some (now + 3600000),
        some ⟨"u1", "alice", "a@b.com", none, none⟩⟩ := by
  unfold AuthService.login AuthService.saveToken AuthService.saveRefreshToken
    AuthService.saveTokenExpiry AuthService.saveUser
  norm_num

theorem C8_witness :
    AuthService.login ⟨none, none, none, none⟩ 0
      ⟨"T1", "R1", "bearer", 3600, "u1", "alice", "a@b.com", none, none⟩ =
      ⟨some "T1", some "R1", some 3600000,
        some ⟨"u1", "alice", "a@b.com", none, none⟩⟩ := by
  simpa using C8_login_scenario ⟨none, none, none, none⟩ 0

/-- C10: with no stored refresh token, a refresh attempt rejects without
touching the store or the unauthorized callback, and an authenticated
request receiving a 401 in that state fails with the
`AuthenticationError` carrying `Session expired. Please login again.`
while the credential store (and the callback count) is left exactly as it
was. -/
theorem C10_missing_refresh_token (now : Int) (cb : Bool) (st : Store)
    (h1 : st.refresh_token = none) :
    (∀ q, ApiService.refreshToken now cb st q =
      ⟨.error (.plainError "No refresh token available"), st, q, 0, false⟩) ∧
    (∀ (hs : Headers) (b : Body) (q : List FetchOutcome),
      ApiService.shouldRefreshToken st now = false →
      (ApiService.request now cb hs true false st (.resp 401 b :: q)).result =
        .error (.appError (AuthenticationError "Session expired. Please login again.")) ∧
      (ApiService.request now cb hs true false st (.resp 401 b :: q)).store = st ∧
      (ApiService.request now cb hs true false st (.resp 401 b :: q)).callbacks = 0 ∧
      (ApiService.request now cb hs true false st (.resp 401 b :: q)).queue = q) := by
  constructor
  · intro q
    simp [ApiService.refreshToken, h1, truthyStr]
  · intro hs b q h2
    simp [ApiService.request, ApiService.requestBase, ApiService.requestTry, h2,
      ApiService.requestGo, ApiService.refreshToken, h1, truthyStr,
      ApiService.applyCatch, parseApiError_401]

theorem C10_witness :
    (ApiService.refreshToken 0 true ⟨some "T", none, some 99, some ⟨"u", "n", "e", none, none⟩⟩ [] =
      ⟨.error (.plainError "No refresh token available"),
        ⟨some "T", none, some 99, some ⟨"u", "n", "e", none, none⟩⟩, [], 0, false⟩) ∧
    (ApiService.request 0 true emptyHeaders true false ⟨some "T", none, none, none⟩
      [.resp 401 (.errBody (.inl "unauthorized"))]).result =
      .error (.appError (AuthenticationError "Session expired. Please login again.")) :=
  ⟨(C10_missing_refresh_token 0 true
      ⟨some "T", none, some 99, some ⟨"u", "n", "e", none, none⟩⟩ rfl).1 [],
   ((C10_missing_refresh_token 0 true ⟨some "T", none, none, none⟩ rfl).2
      emptyHeaders (.errBody (.inl "unauthorized")) [] rfl).1⟩

/-- C3: an authenticated first-attempt request answered 401 performs exactly
one refresh and re-issues the original request exactly once, marked as a
retry; a 401 on the retry fails the call with an `AuthenticationError` and
no further refresh or retry happens; a failing refresh fails the call with
the session-expired `AuthenticationError` without re-issuing the request. -/
theorem C3_reactive_retry_once (now : Int) (cb : Bool) (hs : Headers) (st : Store)
    (b1 : Body) (h0 : ApiService.shouldRefreshToken st now = false)
    (h1 : truthyStr st.refresh_token = true) :
    (∀ (s2 : Int) (d2 : Sum String (String × String)) (q2 : List FetchOutcome),
      ¬(200 ≤ s2 ∧ s2 ≤ 299) →
      (ApiService.request now cb hs true false st
          (.resp 401 b1 :: .resp s2 (.errBody d2) :: q2)).result =
        .error (.appError (AuthenticationError "Session expired. Please login again.")) ∧
      primaryCount (ApiService.request now cb hs true false st
          (.resp 401 b1 :: .resp s2 (.errBody d2) :: q2)).log = 1 ∧
      retryFetchCount (ApiService.request now cb hs true false st
          (.resp 401 b1 :: .resp s2 (.errBody d2) :: q2)).log = 0 ∧
      refreshCallCount (ApiService.request now cb hs true false st
          (.resp 401 b1 :: .resp s2 (.errBody d2) :: q2)).log = 1) ∧
    (∀ (a r tt m2 : String) (e : Int) (q2 : List FetchOutcome),
      (ApiService.request now cb hs true false st
          (.resp 401 b1 :: .resp 200 (.refreshBody a r tt e) ::
            .resp 401 (.errBody (.inl m2)) :: q2)).result =
        .error (.appError (AuthenticationError m2)) ∧
      primaryCount (ApiService.request now cb hs true false st
          (.resp 401 b1 :: .resp 200 (.refreshBody a r tt e) ::
            .resp 401 (.errBody (.inl m2)) :: q2)).log = 2 ∧
      retryFetchCount (ApiService.request now cb hs true false st
          (.resp 401 b1 :: .resp 200 (.refreshBody a r tt e) ::
            .resp 401 (.errBody (.inl m2)) :: q2)).log = 1 ∧
      refreshCallCount (ApiService.request now cb hs true false st
          (.resp 401 b1 :: .resp 200 (.refreshBody a r tt e) ::
            .resp 401 (.errBody (.inl m2)) :: q2)).log = 1 ∧
      refreshFetchCount (ApiService.request now cb hs true false st
          (.resp 401 b1 :: .resp 200 (.refreshBody a r tt e) ::
            .resp 401 (.errBody (.inl m2)) :: q2)).log = 1) := by
  constructor
  · intro s2 d2 q2 h2
    simp [ApiService.request, ApiService.requestBase, ApiService.requestTry, h0,
      ApiService.requestGo, ApiService.refreshToken, h1, h2, ApiService.applyCatch,
      parseApiError_401, primaryCount, retryFetchCount, refreshCallCount,
      List.countP_cons, List.countP_append]
  · intro a r tt m2 e q2
    simp [ApiService.request, ApiService.requestBase, ApiService.requestTry, h0,
      ApiService.requestGo, ApiService.refreshToken, h1, ApiService.applyCatch,
      ApiService.handleResponse, parseApiError_401, primaryCount, retryFetchCount,
      refreshCallCount, refreshFetchCount, List.countP_cons, List.countP_append]

theorem C3_witness :
    (ApiService.request 0 false emptyHeaders true false ⟨some "T", some "R", none, none⟩
      [.resp 401 (.errBody (.inl "expired")), .resp 200 (.refreshBody "T2" "R2" "bearer" 3600),
        .resp 401 (.errBody (.inl "still bad"))]).result =
      .error (.appError (AuthenticationError "still bad")) :=
  ((C3_reactive_retry_once 0 false emptyHeaders ⟨some "T", some "R", none, none⟩
      (.errBody (.inl "expired")) rfl rfl).2 "T2" "R2" "bearer" "still bad" 3600 []).1

/-- C7 (amended): a fetch rejection with a `TypeError` surfaces as a
`NetworkError` exactly when the message contains `Failed to fetch`; any
other `TypeError` is rethrown unchanged — in particular it never surfaces
as an authentication, authorization, validation or other HTTP-level error
kind. -/
theorem C7_transport_failure (now : Int) (cb : Bool) (hs : Headers) (st : Store)
    (q : List FetchOutcome) (m : String)
    (h0 : ApiService.shouldRefreshToken st now = false) :
    (includes m "Failed to fetch" = true →
      (ApiService.request now cb hs true false st
          (.reject (.typeError m) :: q)).result =
        .error (.appError (NetworkError
          "Network connection failed. Please check your internet connection."))) ∧
    (includes m "Failed to fetch" = false →
      (ApiService.request now cb hs true false st
          (.reject (.typeError m) :: q)).result = .error (.typeError m) ∧
      resultKind (ApiService.request now cb hs true false st
          (.reject (.typeError m) :: q)).result = none) := by
  constructor
  · intro hm
    simp [ApiService.request, ApiService.requestBase, ApiService.requestTry, h0,
      ApiService.requestGo, ApiService.applyCatch, hm]
  · intro hm
    simp [ApiService.request, ApiService.requestBase, ApiService.requestTry, h0,
      ApiService.requestGo, ApiService.applyCatch, hm, resultKind]

theorem C7_witness :
    (ApiService.request 0 false emptyHeaders true false ⟨none, none, none, none⟩
      [.reject (.typeError "Failed to fetch")]).result =
      .error (.appError (NetworkError
        "Network connection failed. Please check your internet connection.")) :=
  (C7_transport_failure 0 false emptyHeaders ⟨none, none, none, none⟩ []
    "Failed to fetch" rfl).1 rfl

/-- C7 counterexample: a transport-level `TypeError` whose message is the
one Firefox raises offline (`NetworkError when attempting to fetch
resource.`) does not contain `Failed to fetch`, so the call fails with the
raw `TypeError`, not with a `NetworkError`-kind typed error — the claim
that every generic transport `TypeError` surfaces as `NetworkError` is
false on the code. -/
theorem C7_counterexample :
    (ApiService.request 0 false emptyHeaders true false ⟨none, none, none, none⟩
      [.reject (.typeError "NetworkError when attempting to fetch resource.")]).result =
      .error (.typeError "NetworkError when attempting to fetch resource.") ∧
    resultKind (ApiService.request 0 false emptyHeaders true false
      ⟨none, none, none, none⟩
      [.reject (.typeError "NetworkError when attempting to fetch resource.")]).result =
      none :=
  ⟨rfl, rfl⟩

/-- C9 (amended): the default interceptor ignores `requiresAuth`: the
dispatched request carries `Authorization: Bearer <token>` whenever a
(truthy) token is stored — for unauthenticated calls too; with no truthy
token, an authenticated call carries an empty `Authorization` header (from
`getAuthHeaders`) and an unauthenticated call carries none at all. -/
theorem C9_auth_header_injection (now : Int) (cb : Bool) (hs : Headers)
    (ra ir : Bool) (st : Store) (q : List FetchOutcome)
    (h1 : (ra && !ir && ApiService.shouldRefreshToken st now) = false)
    (h2 : hs "Authorization" = none) :
    (∀ t, st.access_token = some t → t ≠ "" →
      firstFetchAuthHeader (ApiService.request now cb hs ra ir st q).log =
        some (some ("Bearer " ++ t))) ∧
    (truthyStr st.access_token = false → ra = true →
      firstFetchAuthHeader (ApiService.request now cb hs ra ir st q).log =
        some (some "")) ∧
    (truthyStr st.access_token = false → ra = false →
      firstFetchAuthHeader (ApiService.request now cb hs ra ir st q).log =
        some none) := by
  have key : firstFetchHeaders (ApiService.request now cb hs ra ir st q).log =
      some (ApiService.defaultRequestInterceptor st
        (spreadHeaders hs
          (if ra then ApiService.getAuthHeaders st else emptyHeaders))) := by
    cases ir
    · have e1 : ApiService.request now cb hs ra false st q =
          ApiService.requestBase
            (fun st' q' => ApiService.requestBase ApiService.noRetryCont now cb hs
              ra true st' q') now cb hs ra false st q := rfl
      rw [e1]
      unfold ApiService.requestBase
      rw [applyCatch_log]
      rw [requestTry_not_proactive _ _ _ _ _ _ _ _ (by
        rintro ⟨hra, -, hsr⟩
        rw [hra, hsr] at h1
        simp at h1)]
      exact requestGo_firstHeaders _ now cb hs ra false st q 0
    · have e1 : ApiService.request now cb hs ra true st q =
          ApiService.requestBase ApiService.noRetryCont now cb hs ra true st q := rfl
      rw [e1]
      unfold ApiService.requestBase
      rw [applyCatch_log]
      rw [requestTry_not_proactive _ _ _ _ _ _ _ _ (by rintro ⟨-, h, -⟩; exact absurd h (by simp))]
      exact requestGo_firstHeaders _ now cb hs ra true st q 0
  refine ⟨?_, ?_, ?_⟩
  · intro t ht htne
    unfold firstFetchAuthHeader
    rw [key]
    simp [ApiService.defaultRequestInterceptor, truthyStr, ht, htne, setHeader]
  · intro htr hra
    unfold firstFetchAuthHeader
    rw [key]
    subst hra
    cases ht : st.access_token with
    | none =>
      simp [ApiService.defaultRequestInterceptor, truthyStr, ht,
        ApiService.getAuthHeaders, setHeader, spreadHeaders, emptyHeaders]
    | some t =>
      have hte : t = "" := by
        rw [ht] at htr
        simpa [truthyStr] using htr
      subst hte
      simp [ApiService.defaultRequestInterceptor, truthyStr, ht,
        ApiService.getAuthHeaders, setHeader, spreadHeaders, emptyHeaders]
  · intro htr hra
    unfold firstFetchAuthHeader
    rw [key]
    subst hra
    simp [ApiService.defaultRequestInterceptor, htr, spreadHeaders, emptyHeaders, h2]

theorem C9_witness :
    firstFetchAuthHeader (ApiService.request 0 false emptyHeaders true false
      ⟨some "T1", none, none, none⟩ [.resp 200 (.value "ok")]).log =
      some (some "Bearer T1") :=
  (C9_auth_header_injection 0 false emptyHeaders true false
    ⟨some "T1", none, none, none⟩ [.resp 200 (.value "ok")] rfl rfl).1 "T1" rfl
    (by decide)

/-- C9 counterexample: with an access token stored, a request issued with
`requiresAuth = false` (exactly how `login`/`register` post their
payloads) still carries `Authorization: Bearer T1`: the default
interceptor only tests `token && config.headers`, and the merged headers
object always exists, so the claim that `requiresAuth = false` requests
never carry the header is false on the code. -/
theorem C9_counterexample :
    firstFetchAuthHeader (ApiService.request 0 false emptyHeaders false false
      ⟨some "T1", none, none, none⟩ [.resp 200 (.value "ok")]).log =
      some (some "Bearer T1") ∧
    (ApiService.request 0 false emptyHeaders false false
      ⟨some "T1", none, none, none⟩ [.resp 200 (.value "ok")]).result =
      .ok (.fromBody (.value "ok")) :=
  ⟨rfl, rfl⟩

/-- C1 (amended): over every schedulable trace, at most one backend refresh
request is ever outstanding (single-flight); while one is in flight, any
further `refreshToken()` call returns the same pending promise without
dispatching anything, and its settlement clears `refreshPromise` and
`isRefreshing`.  The claim's clause that the handle is cleared *exactly* on
settlement fails in the no-refresh-token path (see `C1_counterexample`):
there the already-settled rejected promise is left in the handle. -/
theorem C1_single_flight (evs : List Coord.CoordEv) (b : Bool) :
    Coord.CoordInv (Coord.coordRun (Coord.coordInit b) evs) ∧
    (Coord.coordRun (Coord.coordInit b) evs).outstanding ≤ 1 ∧
    (∀ p, (Coord.coordRun (Coord.coordInit b) evs).refreshPromise = some p →
      p.settled = false →
      Coord.coordStep (Coord.coordRun (Coord.coordInit b) evs) .call =
        (Coord.coordRun (Coord.coordInit b) evs, some p.id)) ∧
    (∀ ok, (Coord.coordRun (Coord.coordInit b) evs).outstanding = 1 →
      (Coord.coordStep (Coord.coordRun (Coord.coordInit b) evs)
        (.settle ok)).1.refreshPromise = none ∧
      (Coord.coordStep (Coord.coordRun (Coord.coordInit b) evs)
        (.settle ok)).1.isRefreshing = false) := by
  have hinv := coordRun_inv evs _ (coordInit_inv b)
  refine ⟨hinv, hinv.1, ?_, ?_⟩
  · intro p hp hps
    have hout : (Coord.coordRun (Coord.coordInit b) evs).outstanding = 1 :=
      hinv.2.2.mp ⟨p, hp, hps⟩
    have href : (Coord.coordRun (Coord.coordInit b) evs).isRefreshing = true :=
      hinv.2.1.mpr hout
    simp only [Coord.coordStep]
    rw [if_pos ⟨href, by simp [hp]⟩, hp]
    rfl
  · intro ok h1
    simp only [Coord.coordStep]
    rw [if_neg (by omega)]
    exact ⟨rfl, rfl⟩

theorem C1_witness :
    Coord.coordStep (Coord.coordRun (Coord.coordInit true) [Coord.CoordEv.call])
        Coord.CoordEv.call =
      (Coord.coordRun (Coord.coordInit true) [Coord.CoordEv.call], some 0) :=
  (C1_single_flight [Coord.CoordEv.call] true).2.2.1 ⟨0, false⟩ rfl rfl

/-- C1 counterexample: trace `call, settle false, call` from a logged-in
state.  The failed first refresh removed the stored refresh token, so the
third event's refresh operation rejects synchronously (before any `await`):
its `finally` runs first, and the assignment
`this.refreshPromise = (async () => …)()` then stores the already-rejected
promise.  After that operation has settled we have `refreshPromise`
non-null holding a settled promise, nothing outstanding, `isRefreshing`
false, and only the one earlier backend request ever dispatched — the
handle was not cleared on settlement, refuting the claim's
`cleared exactly on settlement` clause. -/
theorem C1_counterexample :
    (Coord.coordRun (Coord.coordInit true)
      [Coord.CoordEv.call, Coord.CoordEv.settle false,
        Coord.CoordEv.call]).refreshPromise = some ⟨1, true⟩ ∧
    (Coord.coordRun (Coord.coordInit true)
      [Coord.CoordEv.call, Coord.CoordEv.settle false,
        Coord.CoordEv.call]).outstanding = 0 ∧
    (Coord.coordRun (Coord.coordInit true)
      [Coord.CoordEv.call, Coord.CoordEv.settle false,
        Coord.CoordEv.call]).isRefreshing = false ∧
    (Coord.coordRun (Coord.coordInit true)
      [Coord.CoordEv.call, Coord.CoordEv.settle false,
        Coord.CoordEv.call]).totalFetches = 1 := by
  decide

